import Mathlib

/-!
Shallow embedding of the MythOS client console
(src/frontend/src/App.js, component MythosConsole).

State model: the React useState hooks of MythosConsole become the fields of
ConsoleState.  Each asynchronous protocol (loadMythosData, processInteraction,
generateDream) becomes a pure function from the pre-state and the outcomes of
its gateway calls to the post-state; a gateway outcome is an Option value,
some for a resolved response and none for a rejected one (TransportError).
The HTTP requests a protocol issues are modelled separately as a List Request,
and the console.error observability output as a List String.
-/

namespace MythOS

/-- NarrativeFragment as rendered by the console: id, title, prose, archetype,
emotional tone and tags (App.js lines 193-215). -/
structure NarrativeFragment where
  id : String
  title : String
  prose : String
  archetype : String
  emotional_tone : String
  tags : List String
deriving DecidableEq

/-- DreamScenario as rendered by the console: id, name_suggestion, prose,
emotional tone, resonance score and timestamp (App.js lines 246-264).
The resonance score is a number in the source; it is carried opaquely here. -/
structure DreamScenario where
  id : String
  name_suggestion : String
  prose : String
  emotional_tone : String
  resonance_score : ℚ
  timestamp : String
deriving DecidableEq

/-- AggregateStats as consumed by the header (App.js lines 126-144).  The
stats hook is initialised to the empty object and each field is read with a
fallback, so every field is optional. -/
structure AggregateStats where
  total_narratives : Option Nat
  total_dreams : Option Nat
  dominant_archetype : Option String
  dominant_emotion : Option String
deriving DecidableEq

/-- The in-progress interaction draft (the newInteraction hook,
App.js lines 16-20). -/
structure InteractionDraft where
  user_interaction : String
  ai_response : String
  outcome : String
deriving DecidableEq

/-- The six useState hooks of MythosConsole (App.js lines 11-20). -/
structure ConsoleState where
  narratives : List NarrativeFragment
  dreams : List DreamScenario
  stats : AggregateStats
  loading : Bool
  activeTab : String
  newInteraction : InteractionDraft
deriving DecidableEq

/-- The initial hook values: empty lists, empty stats object, loading true,
tab "narratives", empty draft with outcome "success" (App.js lines 11-20). -/
def initialConsoleState : ConsoleState :=
  { narratives := []
    dreams := []
    stats := { total_narratives := none
               total_dreams := none
               dominant_archetype := none
               dominant_emotion := none }
    loading := true
    activeTab := "narratives"
    newInteraction := { user_interaction := ""
                        ai_response := ""
                        outcome := "success" } }

/-- The HTTP requests the console can issue against the gateway
(the axios calls in App.js). -/
inductive Request where
  | getNarratives
  | getDreams
  | getStats
  | postProcess (body : InteractionDraft)
  | postDream
deriving DecidableEq

/-- loadMythosData (App.js lines 26-42).  The three fetches are joined with
Promise.all: if all resolve, the three state fields are replaced and loading
is cleared; if any rejects, Promise.all rejects, the catch block only clears
loading, and the values of sibling fetches that resolved are discarded. -/
def loadMythosData (s : ConsoleState)
    (narrativesRes : Option (List NarrativeFragment))
    (dreamsRes : Option (List DreamScenario))
    (statsRes : Option AggregateStats) : ConsoleState :=
  match narrativesRes, dreamsRes, statsRes with
  | some ns, some ds, some st =>
      { s with narratives := ns, dreams := ds, stats := st, loading := false }
  | _, _, _ => { s with loading := false }

/-- The requests loadMythosData issues: the three concurrent GETs
(App.js lines 28-32). -/
def loadMythosDataRequests : List Request :=
  [Request.getNarratives, Request.getDreams, Request.getStats]

/-- The state visible while the loadMythosData fetches are in flight: the
function body performs no state update before awaiting Promise.all
(App.js lines 26-32), so the pre-call state is unchanged until completion.
In particular loadMythosData never sets the loading flag to true. -/
def loadMythosDataInFlight (s : ConsoleState) : ConsoleState := s

/-- The console.error lines loadMythosData emits (App.js line 39). -/
def loadMythosDataLog (narrativesRes : Option (List NarrativeFragment))
    (dreamsRes : Option (List DreamScenario))
    (statsRes : Option AggregateStats) : List String :=
  match narrativesRes, dreamsRes, statsRes with
  | some _, some _, some _ => []
  | _, _, _ => ["Error loading MythOS data:"]

/-- The empty-defaults draft the submission protocol resets to
(App.js lines 48-52). -/
def draftDefaults : InteractionDraft :=
  { user_interaction := "", ai_response := "", outcome := "success" }

/-- processInteraction (App.js lines 44-59).  The draft is POSTed with no
validation inside the function; on success the returned fragment is prepended
to the narrative list and the draft reset, then a stats-only GET is issued
and, when it resolves, replaces the stats field.  Both awaits sit in one try
block, so a rejection at either point jumps to the catch, which only logs;
state updates already applied before the rejection are retained. -/
def processInteraction (s : ConsoleState)
    (postRes : Option NarrativeFragment)
    (statsRes : Option AggregateStats) : ConsoleState :=
  match postRes with
  | none => s
  | some fragment =>
      let s1 := { s with narratives := fragment :: s.narratives
                         newInteraction := draftDefaults }
      match statsRes with
      | none => s1
      | some st => { s1 with stats := st }

/-- The requests processInteraction issues: always the POST of the current
draft (App.js line 46); the follow-up stats GET (line 54) only when the POST
resolved. -/
def processInteractionRequests (s : ConsoleState)
    (postRes : Option NarrativeFragment) : List Request :=
  Request.postProcess s.newInteraction ::
    (match postRes with
     | some _ => [Request.getStats]
     | none => [])

/-- The console.error lines processInteraction emits (App.js line 57): one
line whenever the POST or the follow-up stats GET rejects. -/
def processInteractionLog (postRes : Option NarrativeFragment)
    (statsRes : Option AggregateStats) : List String :=
  match postRes with
  | none => ["Error processing interaction:"]
  | some _ =>
      match statsRes with
      | none => ["Error processing interaction:"]
      | some _ => []

/-- generateDream (App.js lines 61-69).  On success of the dream POST the
returned dream is prepended, then loadMythosData is invoked as a full bulk
refresh; on rejection of the POST the catch only logs and nothing changes. -/
def generateDream (s : ConsoleState)
    (dreamRes : Option DreamScenario)
    (narrativesRes : Option (List NarrativeFragment))
    (dreamsRes : Option (List DreamScenario))
    (statsRes : Option AggregateStats) : ConsoleState :=
  match dreamRes with
  | none => s
  | some d =>
      let s1 := { s with dreams := d :: s.dreams }
      loadMythosData s1 narrativesRes dreamsRes statsRes

/-- The requests generateDream issues: the dream POST (App.js line 63), then
on its success the three GETs of the full bulk refresh (line 65). -/
def generateDreamRequests (dreamRes : Option DreamScenario) : List Request :=
  Request.postDream ::
    (match dreamRes with
     | some _ => loadMythosDataRequests
     | none => [])

/-- Tab selection: every tab button calls setActiveTab with its tab string,
unconditionally and synchronously (App.js lines 154, 160, 166, 185). -/
def selectTab (s : ConsoleState) (tab : String) : ConsoleState :=
  { s with activeTab := tab }

/-- The disabled attribute of the Process Interaction button
(App.js line 322): disabled when either required draft field is the empty
string (JS falsiness of a string field). -/
def processButtonDisabled (s : ConsoleState) : Bool :=
  s.newInteraction.user_interaction == "" || s.newInteraction.ai_response == ""

/-- The submit intent at the renderer boundary: a click on the Process
Interaction button (App.js lines 320-326).  A disabled button does not fire
its onClick handler, so with an empty required field no call into
processInteraction happens and no request is issued. -/
def submitIntent (s : ConsoleState)
    (postRes : Option NarrativeFragment)
    (statsRes : Option AggregateStats) : ConsoleState × List Request :=
  if processButtonDisabled s then (s, [])
  else (processInteraction s postRes statsRes, processInteractionRequests s postRes)

/-- What the main content area renders (App.js lines 103-330): the loading
spinner takes priority; otherwise the active tab picks the section, and an
empty narrative or dream list is replaced by its explicit empty state.  The
narratives empty state carries its message and the tab its shortcut button
selects. -/
inductive RenderedMain where
  | loadingSpinner
  | narrativesList (items : List NarrativeFragment)
  | narrativesEmptyState (message : String) (shortcutTab : String)
  | dreamsList (items : List DreamScenario)
  | dreamsEmptyState
  | createForm (draft : InteractionDraft) (submitDisabled : Bool)
  | noTabContent
deriving DecidableEq

/-- The renderer at the boundary (App.js lines 103-330). -/
def render (s : ConsoleState) : RenderedMain :=
  if s.loading then RenderedMain.loadingSpinner
  else if s.activeTab = "narratives" then
    if s.narratives.isEmpty then
      RenderedMain.narrativesEmptyState
        "No narratives yet. Create the first interaction to begin the myth."
        "create"
    else RenderedMain.narrativesList s.narratives
  else if s.activeTab = "dreams" then
    if s.dreams.isEmpty then RenderedMain.dreamsEmptyState
    else RenderedMain.dreamsList s.dreams
  else if s.activeTab = "create" then
    RenderedMain.createForm s.newInteraction (processButtonDisabled s)
  else RenderedMain.noTabContent

/-- Clicking the Create First Narrative shortcut button of the narratives
empty state (App.js line 185): onClick sets the active tab to "create". -/
def narrativesEmptyShortcutClick (s : ConsoleState) : ConsoleState :=
  selectTab s "create"

/-- Sample fragment, taken from the end-to-end scenario of the spec. -/
def sampleFragment : NarrativeFragment :=
  { id := "n1"
    title := "First Contact"
    prose := "A first exchange."
    archetype := "Hero"
    emotional_tone := "Hope"
    tags := ["intro"] }

/-- Sample dream scenario used as a concrete input. -/
def sampleDream : DreamScenario :=
  { id := "d1"
    name_suggestion := "Aurel"
    prose := "A dream of naming."
    emotional_tone := "Wonder"
    resonance_score := 87 / 100
    timestamp := "2024-01-01T00:00:00Z" }

/-- Stats snapshot with zero counts, from the end-to-end scenario. -/
def zeroStats : AggregateStats :=
  { total_narratives := some 0
    total_dreams := some 0
    dominant_archetype := none
    dominant_emotion := none }

/-- Claim C1: if any one of the three bulk-refresh fetches of loadMythosData
fails, the narratives, dreams and stats fields all keep their pre-refresh
values (results of sibling fetches that succeeded are discarded) and the
loading flag is false after the operation completes. -/
theorem loadMythosData_failure_preserves_state (s : ConsoleState)
    (a : Option (List NarrativeFragment)) (b : Option (List DreamScenario))
    (c : Option AggregateStats) (h : a = none ∨ b = none ∨ c = none) :
    (loadMythosData s a b c).narratives = s.narratives ∧
    (loadMythosData s a b c).dreams = s.dreams ∧
    (loadMythosData s a b c).stats = s.stats ∧
    (loadMythosData s a b c).loading = false := by
  rcases a with _ | ns <;> rcases b with _ | ds <;> rcases c with _ | st <;>
    simp_all [loadMythosData]

/-- Closed instance of loadMythosData_failure_preserves_state: the stats
fetch fails while the sibling fetches resolved; nothing is applied. -/
theorem loadMythosData_failure_preserves_state_witness :
    ((some [sampleFragment] : Option (List NarrativeFragment)) = none ∨
      (some [sampleDream] : Option (List DreamScenario)) = none ∨
      (none : Option AggregateStats) = none) ∧
    ((loadMythosData initialConsoleState (some [sampleFragment])
        (some [sampleDream]) none).narratives = initialConsoleState.narratives ∧
      (loadMythosData initialConsoleState (some [sampleFragment])
        (some [sampleDream]) none).dreams = initialConsoleState.dreams ∧
      (loadMythosData initialConsoleState (some [sampleFragment])
        (some [sampleDream]) none).stats = initialConsoleState.stats ∧
      (loadMythosData initialConsoleState (some [sampleFragment])
        (some [sampleDream]) none).loading = false) :=
  ⟨Or.inr (Or.inr rfl),
    loadMythosData_failure_preserves_state initialConsoleState
      (some [sampleFragment]) (some [sampleDream]) none (Or.inr (Or.inr rfl))⟩

/-- Claim C2: on a bulk refresh in which all three fetches succeed, the
narratives, dreams and stats fields are wholly replaced by the respective
fetch results and the loading flag is false afterward. -/
theorem loadMythosData_success_replaces_state (s : ConsoleState)
    (ns : List NarrativeFragment) (ds : List DreamScenario)
    (st : AggregateStats) :
    (loadMythosData s (some ns) (some ds) (some st)).narratives = ns ∧
    (loadMythosData s (some ns) (some ds) (some st)).dreams = ds ∧
    (loadMythosData s (some ns) (some ds) (some st)).stats = st ∧
    (loadMythosData s (some ns) (some ds) (some st)).loading = false :=
  ⟨rfl, rfl, rfl, rfl⟩

/-- Claim C3: with both required draft fields non-empty and a successful
submit POST returning fragment f, processInteraction prepends f to the
narrative list, resets the draft to empty defaults with outcome success, and
afterwards issues a stats-only refresh: the requests are exactly the POST of
the draft followed by the stats GET (no narratives or dreams GET), and the
dream list is untouched whatever the stats fetch returns. -/
theorem processInteraction_success_prepends_and_stats_only (s : ConsoleState)
    (f : NarrativeFragment) (statsRes : Option AggregateStats)
    (h1 : s.newInteraction.user_interaction ≠ "")
    (h2 : s.newInteraction.ai_response ≠ "") :
    (processInteraction s (some f) statsRes).narratives = f :: s.narratives ∧
    (processInteraction s (some f) statsRes).newInteraction =
      { user_interaction := "", ai_response := "", outcome := "success" } ∧
    (processInteraction s (some f) statsRes).dreams = s.dreams ∧
    processInteractionRequests s (some f) =
      [Request.postProcess s.newInteraction, Request.getStats] := by
  rcases statsRes with _ | st <;>
    simp [processInteraction, processInteractionRequests, draftDefaults]

/-- Closed instance of processInteraction_success_prepends_and_stats_only at
the end-to-end scenario of the spec: draft Hi / Hello there submitted
successfully, stats refresh succeeds. -/
theorem processInteraction_success_witness :
    ({ initialConsoleState with
        newInteraction := { user_interaction := "Hi"
                            ai_response := "Hello there"
                            outcome := "success" } } :
      ConsoleState).newInteraction.user_interaction ≠ "" ∧
    ({ initialConsoleState with
        newInteraction := { user_interaction := "Hi"
                            ai_response := "Hello there"
                            outcome := "success" } } :
      ConsoleState).newInteraction.ai_response ≠ "" ∧
    ((processInteraction
        { initialConsoleState with
          newInteraction := { user_interaction := "Hi"
                              ai_response := "Hello there"
                              outcome := "success" } }
        (some sampleFragment) (some zeroStats)).narratives =
      sampleFragment ::
        ({ initialConsoleState with
            newInteraction := { user_interaction := "Hi"
                                ai_response := "Hello there"
                                outcome := "success" } } :
          ConsoleState).narratives ∧
      (processInteraction
        { initialConsoleState with
          newInteraction := { user_interaction := "Hi"
                              ai_response := "Hello there"
                              outcome := "success" } }
        (some sampleFragment) (some zeroStats)).newInteraction =
        { user_interaction := "", ai_response := "", outcome := "success" } ∧
      (processInteraction
        { initialConsoleState with
          newInteraction := { user_interaction := "Hi"
                              ai_response := "Hello there"
                              outcome := "success" } }
        (some sampleFragment) (some zeroStats)).dreams =
        ({ initialConsoleState with
            newInteraction := { user_interaction := "Hi"
                                ai_response := "Hello there"
                                outcome := "success" } } :
          ConsoleState).dreams ∧
      processInteractionRequests
        { initialConsoleState with
          newInteraction := { user_interaction := "Hi"
                              ai_response := "Hello there"
                              outcome := "success" } }
        (some sampleFragment) =
        [Request.postProcess
          { user_interaction := "Hi"
            ai_response := "Hello there"
            outcome := "success" },
          Request.getStats]) :=
  ⟨by decide, by decide,
    processInteraction_success_prepends_and_stats_only _ sampleFragment
      (some zeroStats) (by decide) (by decide)⟩

/-- Claim C4 counterexample: with the draft fields empty (the initial state),
a direct invocation of processInteraction is not a no-op: it still issues the
POST of the (empty) draft to the submit endpoint and, on a resolved response,
changes state.  The function itself performs no validation. -/
theorem processInteraction_posts_empty_draft :
    processInteractionRequests initialConsoleState (some sampleFragment) =
      [Request.postProcess initialConsoleState.newInteraction,
        Request.getStats] ∧
    initialConsoleState.newInteraction.user_interaction = "" ∧
    processInteraction initialConsoleState (some sampleFragment)
        (some zeroStats) ≠ initialConsoleState := by
  refine ⟨rfl, rfl, ?_⟩
  decide

/-- Claim C4 (amended): when user_interaction or ai_response is empty, the
renderer disables the Process Interaction button, so the submit intent at the
renderer boundary performs no gateway call and changes no state; the guard
lives in the disabled attribute, not inside processInteraction. -/
theorem submitIntent_noop_when_field_empty (s : ConsoleState)
    (postRes : Option NarrativeFragment) (statsRes : Option AggregateStats)
    (h : s.newInteraction.user_interaction = "" ∨
      s.newInteraction.ai_response = "") :
    processButtonDisabled s = true ∧
    submitIntent s postRes statsRes = (s, []) := by
  have hd : processButtonDisabled s = true := by
    rcases h with h | h <;> simp [processButtonDisabled, h]
  exact ⟨hd, by simp [submitIntent, hd]⟩

/-- Closed instance of submitIntent_noop_when_field_empty at the initial
state, whose draft fields are empty. -/
theorem submitIntent_noop_witness :
    (initialConsoleState.newInteraction.user_interaction = "" ∨
      initialConsoleState.newInteraction.ai_response = "") ∧
    (processButtonDisabled initialConsoleState = true ∧
      submitIntent initialConsoleState (some sampleFragment) (some zeroStats) =
        (initialConsoleState, [])) :=
  ⟨Or.inl rfl,
    submitIntent_noop_when_field_empty initialConsoleState
      (some sampleFragment) (some zeroStats) (Or.inl rfl)⟩

/-- Claim C5 counterexample: a bulk refresh begun after the initial load has
completed (here: the refresh generateDream triggers after prepending a dream)
runs with the loading flag false, because loadMythosData performs no state
update before awaiting its fetches and in particular never sets the flag to
true; the claim that the flag is true from the moment every load begins fails
at this concrete reachable state. -/
theorem reload_in_flight_loading_false :
    (loadMythosDataInFlight
      { loadMythosData initialConsoleState (some []) (some []) (some zeroStats)
          with
        dreams := sampleDream ::
          (loadMythosData initialConsoleState (some []) (some [])
            (some zeroStats)).dreams }).loading = false := rfl

/-- Claim C5 (amended): the loading flag is initialised to true, so it is
true throughout the initial load; loadMythosData itself never modifies the
flag before completion (the in-flight state keeps the pre-call value, so a
re-load triggered after a completed load runs with the flag false), and every
completion, success or failure, leaves the flag false. -/
theorem loading_flag_lifecycle (s : ConsoleState)
    (a : Option (List NarrativeFragment)) (b : Option (List DreamScenario))
    (c : Option AggregateStats) :
    initialConsoleState.loading = true ∧
    (loadMythosDataInFlight s).loading = s.loading ∧
    (loadMythosData s a b c).loading = false := by
  refine ⟨rfl, rfl, ?_⟩
  rcases a with _ | ns <;> rcases b with _ | ds <;> rcases c with _ | st <;>
    rfl

/-- Claim C6: on a successful dream POST returning d, generateDream prepends
d to the dream list and then performs a full bulk refresh from that
intermediate state: the requests are the dream POST followed by all three
GETs, not a narrower refresh. -/
theorem generateDream_success_prepends_then_full_refresh (s : ConsoleState)
    (d : DreamScenario) (a : Option (List NarrativeFragment))
    (b : Option (List DreamScenario)) (c : Option AggregateStats) :
    generateDream s (some d) a b c =
      loadMythosData { s with dreams := d :: s.dreams } a b c ∧
    generateDreamRequests (some d) =
      [Request.postDream, Request.getNarratives, Request.getDreams,
        Request.getStats] :=
  ⟨rfl, rfl⟩

/-- Claim C7: if the submit POST rejects, processInteraction leaves the whole
state unchanged (draft, narrative list and every other field keep their
pre-call values) and the failure is surfaced to the observability sink as a
console.error line; the protocol returns normally, so the failure is not
fatal. -/
theorem processInteraction_failure_preserves_state (s : ConsoleState)
    (statsRes : Option AggregateStats) :
    processInteraction s none statsRes = s ∧
    processInteractionLog none statsRes = ["Error processing interaction:"] :=
  ⟨rfl, rfl⟩

/-- Claim C8: selectTab X followed by selectTab Y leaves the active tab equal
to Y whatever the prior state (the transition is unconditional), and neither
call touches narratives, dreams, stats, the loading flag or the draft. -/
theorem selectTab_selectTab_sets_tab_only (s : ConsoleState) (x y : String) :
    (selectTab (selectTab s x) y).activeTab = y ∧
    (selectTab (selectTab s x) y).narratives = s.narratives ∧
    (selectTab (selectTab s x) y).dreams = s.dreams ∧
    (selectTab (selectTab s x) y).stats = s.stats ∧
    (selectTab (selectTab s x) y).loading = s.loading ∧
    (selectTab (selectTab s x) y).newInteraction = s.newInteraction :=
  ⟨rfl, rfl, rfl, rfl, rfl, rfl⟩

/-- Claim C9: whenever the narrative list is empty in the rendered narratives
view (loading cleared, narratives tab active), the renderer shows the
no-narratives-yet empty state instead of the list, with a shortcut button
targeting the create tab; activating that button invokes selectTab with the
create tab, which becomes active. -/
theorem render_empty_narratives_state (s : ConsoleState)
    (h1 : s.loading = false) (h2 : s.activeTab = "narratives")
    (h3 : s.narratives = []) :
    render s =
      RenderedMain.narrativesEmptyState
        "No narratives yet. Create the first interaction to begin the myth."
        "create" ∧
    (narrativesEmptyShortcutClick s).activeTab = "create" := by
  constructor
  · simp [render, h1, h2, h3]
  · rfl

/-- Closed instance of render_empty_narratives_state at the end-to-end
scenario of the spec: the initial load resolves with empty lists and zero
counts, and the resulting state renders the empty state with the shortcut. -/
theorem render_empty_narratives_state_witness :
    (loadMythosData initialConsoleState (some []) (some [])
      (some zeroStats)).loading = false ∧
    (loadMythosData initialConsoleState (some []) (some [])
      (some zeroStats)).activeTab = "narratives" ∧
    (loadMythosData initialConsoleState (some []) (some [])
      (some zeroStats)).narratives = [] ∧
    (render (loadMythosData initialConsoleState (some []) (some [])
        (some zeroStats)) =
      RenderedMain.narrativesEmptyState
        "No narratives yet. Create the first interaction to begin the myth."
        "create" ∧
      (narrativesEmptyShortcutClick
        (loadMythosData initialConsoleState (some []) (some [])
          (some zeroStats))).activeTab = "create") :=
  ⟨rfl, rfl, rfl,
    render_empty_narratives_state
      (loadMythosData initialConsoleState (some []) (some []) (some zeroStats))
      rfl rfl rfl⟩

/-- Claim C10: if the submit POST resolves with fragment f but the follow-up
stats-only GET rejects, the already-applied effects are retained, not rolled
back: the fragment stays prepended to the narrative list and the draft stays
reset to defaults, while stats, dreams, the loading flag and the active tab
keep their pre-operation values; the failure is only logged. -/
theorem processInteraction_stats_failure_keeps_applied_effects
    (s : ConsoleState) (f : NarrativeFragment) :
    (processInteraction s (some f) none).narratives = f :: s.narratives ∧
    (processInteraction s (some f) none).newInteraction =
      { user_interaction := "", ai_response := "", outcome := "success" } ∧
    (processInteraction s (some f) none).stats = s.stats ∧
    (processInteraction s (some f) none).dreams = s.dreams ∧
    (processInteraction s (some f) none).loading = s.loading ∧
    (processInteraction s (some f) none).activeTab = s.activeTab ∧
    processInteractionLog (some f) none = ["Error processing interaction:"] :=
  ⟨rfl, rfl, rfl, rfl, rfl, rfl, rfl⟩

end MythOS
